import Mathlib

/-!
Verification of the Inversionson iteration job-state orchestration engine.

The definitions below are a shallow embedding of the two source files
`inversionson/components/project.py` and `inversionson/components/flow_comp.py`.
Python dicts whose keys are strings are modelled as association lists
(`List (String × α)`) with Python's update/insert semantics (`dictSet`) and
`KeyError`-raising access modelled via `Option`/`Except`.  TOML floats are
modelled as rationals.  External collaborators (the salvus-flow compute
backend, the lasif event catalog and the salvus-opt iteration ordering) are
passed in as explicit parameters, mirroring the calls the source makes via
`self.comm`.
-/

namespace Inversionson

/-! ## Python dict model -/

/-- Python `d[k]` read that yields `none` instead of raising `KeyError`. -/
def dictGet {α : Type} (d : List (String × α)) (k : String) : Option α :=
  match d with
  | [] => none
  | (k2, v) :: rest => if k2 == k then some v else dictGet rest k

/-- Python `d[k] = v`: update in place when the key exists, append otherwise. -/
def dictSet {α : Type} (d : List (String × α)) (k : String) (v : α) :
    List (String × α) :=
  match d with
  | [] => [(k, v)]
  | (k2, v2) :: rest =>
    if k2 == k then (k, v) :: rest else (k2, v2) :: dictSet rest k v

theorem dictGet_dictSet_self {α : Type} (d : List (String × α)) (k : String)
    (v : α) : dictGet (dictSet d k v) k = some v := by
  induction d with
  | nil => simp [dictGet, dictSet]
  | cons p rest ih =>
    obtain ⟨k2, v2⟩ := p
    by_cases h : k2 = k
    · subst h
      simp [dictGet, dictSet]
    · simp only [dictSet, beq_iff_eq, h, if_false]
      simp only [dictGet, beq_iff_eq, h, if_false]
      exact ih

theorem dictGet_dictSet_ne {α : Type} (d : List (String × α)) (k k2 : String)
    (v : α) (h : k ≠ k2) : dictGet (dictSet d k v) k2 = dictGet d k2 := by
  induction d with
  | nil => simp [dictGet, dictSet, h]
  | cons p rest ih =>
    obtain ⟨k3, v3⟩ := p
    by_cases h3 : k3 = k
    · subst h3
      simp [dictGet, dictSet, h]
    · simp only [dictSet, beq_iff_eq, h3, if_false]
      by_cases h2 : k3 = k2
      · subst h2
        simp [dictGet]
      · simp only [dictGet, beq_iff_eq, h2, if_false]
        exact ih

theorem dictSet_dictSet_same {α : Type} (d : List (String × α)) (k : String)
    (v w : α) : dictSet (dictSet d k v) k w = dictSet d k w := by
  induction d with
  | nil => simp [dictSet]
  | cons p rest ih =>
    obtain ⟨k2, v2⟩ := p
    by_cases h : k2 = k
    · subst h
      simp [dictSet]
    · simp [dictSet, h, ih]

/-- Looking up any member of a constant-valued mapping yields that value. -/
theorem dictGet_map_const {α : Type} (l : List String) (entry : α) (e : String)
    (h : e ∈ l) : dictGet (l.map (fun x => (x, entry))) e = some entry := by
  induction l with
  | nil => cases h
  | cons a t ih =>
    by_cases hae : a = e
    · subst hae
      simp [dictGet]
    · simp only [List.map, dictGet, beq_iff_eq, hae, if_false]
      rcases List.mem_cons.mp h with h1 | h2
      · exact absurd h1.symm hae
      · exact ih h2

/-! ## Substring test (Python `"validation" in iteration`) -/

def chars_begin_with : List Char → List Char → Bool
  | [], _ => true
  | _ :: _, [] => false
  | p :: ps, c :: cs => p == c && chars_begin_with ps cs

def chars_contain (pat : List Char) : List Char → Bool
  | [] => pat.isEmpty
  | c :: cs => chars_begin_with pat (c :: cs) || chars_contain pat cs

/-- Python `"validation" in iteration` (substring containment), used by
`create_iteration_toml` and `update_iteration_toml` to detect validation
iterations. -/
def isValidationName (iteration : String) : Bool :=
  chars_contain "validation".data iteration.data

/-! ## Data model -/

/-- One compute job's lifecycle record, as stored under `job_info` in an
iteration toml (`f_job_dict` / `a_job_dict` / `s_job_dict` in
`project.py:create_iteration_toml`).  The optional fields model the
mode-dependent presence of the corresponding dict keys. -/
structure JobRecord where
  name : String
  submitted : Bool
  retrieved : Bool
  reposts : Nat
  interpolated : Option Bool := none
  windows_selected : Option Bool := none
deriving DecidableEq

/-- A Python value usable as a dict key in `update_control_group_toml`, where
the source tests membership of the *boolean* `new` in a dict whose keys are
strings. -/
inductive PyKey
  | str (s : String)
  | bool (b : Bool)
deriving DecidableEq

/-- One entry of the control-group ledger `control_groups.toml`:
`{old: [...], new: [...]}` with either key possibly absent. -/
structure CGEntry where
  old? : Option (List String) := none
  new? : Option (List String) := none
deriving DecidableEq

/-- The Python key list of a `CGEntry` dict, in insertion order
(`old` before `new`). -/
def CGEntry.keys (e : CGEntry) : List PyKey :=
  (if e.old?.isSome then [PyKey.str "old"] else [])
    ++ (if e.new?.isSome then [PyKey.str "new"] else [])

/-- Per-event part of an iteration toml: `job_info` plus the `misfit` and
`usage_updated` fields that are absent for validation iterations. -/
structure EventEntry where
  job_info : List (String × JobRecord)
  misfit : Option ℚ := none
  usage_updated : Option Bool := none
deriving DecidableEq

/-- The full iteration toml document (`it_dict` in `project.py`). -/
structure ItDict where
  name : String
  events : List (String × EventEntry)
  last_control_group : Option (List String) := none
  new_control_group : Option (List String) := none
  smoothing : Option JobRecord := none
deriving DecidableEq

/-- The static configuration fields `create_iteration_toml` and friends
dispatch on (string-tagged, exactly as in the source). -/
structure Config where
  meshes : String
  inversion_mode : String
deriving DecidableEq

/-! ## project.py: create_iteration_toml (dict construction) -/

/-- The freshly seeded job dict
`{name: "", submitted: False, retrieved: False, reposts: 0}`. -/
def base_job : JobRecord :=
  { name := "", submitted := false, retrieved := false, reposts := 0 }

/-- The forward/adjoint seed of a fresh non-validation iteration:
`base_job`, plus `interpolated = False` when `meshes == "multi-mesh"`. -/
def mm_seed (meshes : String) : JobRecord :=
  if meshes == "multi-mesh" then { base_job with interpolated := some false }
  else base_job

/-- `ProjectComponent.create_iteration_toml` (project.py:562-657), dict
construction part.  The control-group toml content (`ctrl_grps`), the
previous iteration name reported by salvus-opt (`prev_iter`) and the lasif
event list (`events`) are passed in, mirroring the collaborator calls.
Missing-key reads of the loaded control-group dict raise `KeyError`,
modelled by `Except.error`. -/
def create_iteration_toml (cfg : Config) (iteration : String)
    (ctrl_grps : List (String × CGEntry)) (prev_iter : String)
    (events : List String) : Except String ItDict :=
  let validation := isValidationName iteration
  let last_cg : Except String (List String) :=
    if iteration != "it0000_model" && !validation then
      match dictGet ctrl_grps prev_iter with
      | some e =>
        match e.new? with
        | some v => Except.ok v
        | none => Except.error ("KeyError: new")
      | none => Except.error ("KeyError: " ++ prev_iter)
    else Except.ok []
  match last_cg with
  | Except.error m => Except.error m
  | Except.ok last_control_group =>
    let f1 := if validation then { base_job with windows_selected := some false }
              else base_job
    let f_job := if cfg.meshes == "multi-mesh"
                 then { f1 with interpolated := some false } else f1
    let a_job := if cfg.meshes == "multi-mesh" && !validation
                 then { base_job with interpolated := some false } else base_job
    let s_job := base_job
    let jobs : List (String × JobRecord) :=
      if validation then [("forward", f_job)]
      else if cfg.inversion_mode == "mini-batch" then
        [("forward", f_job), ("adjoint", a_job), ("smoothing", s_job)]
      else [("forward", f_job), ("adjoint", a_job)]
    let entry : EventEntry :=
      { job_info := jobs
        misfit := if validation then none else some 0
        usage_updated := if validation then none else some false }
    Except.ok
      { name := iteration
        events := events.map (fun e => (e, entry))
        last_control_group :=
          if validation then none else some last_control_group
        new_control_group := if validation then none else some []
        smoothing :=
          if cfg.inversion_mode == "mono-batch" && !validation then some s_job
          else none }

/-! ## project.py: create_iteration_toml (file handling) -/

/-- Observable file-system effects of `create_iteration_toml`
(project.py:570-584, 656-657): the `InversionsonWarning`, the
`shutil.copyfile` backup and the final `toml.dump` overwrite. -/
inductive FsEffect
  | warnExisting (iteration : String)
  | copyFile (src dst : String)
  | writeFile (path : String)
deriving DecidableEq

/-- `os.path.join(self.paths["iteration_tomls"], iteration + ".toml")`. -/
def iteration_toml_path (dir iteration : String) : String :=
  dir ++ "/" ++ iteration ++ ".toml"

/-- `os.path.join(self.paths["iteration_tomls"], f"backup_{iteration}.toml")`. -/
def backup_toml_path (dir iteration : String) : String :=
  dir ++ "/backup_" ++ iteration ++ ".toml"

/-- File-level behaviour of `create_iteration_toml` (project.py:570-584 and
the final `toml.dump`): the file system is a path-to-content map, the
serialized new record is `content`.  When the active file already exists the
source warns, copies it to the backup path (the original stays in place) and
then overwrites the active file. -/
def create_iteration_toml_fs (fs : List (String × String))
    (dir iteration content : String) :
    List FsEffect × List (String × String) :=
  match dictGet fs (iteration_toml_path dir iteration) with
  | some old =>
    ([FsEffect.warnExisting iteration,
      FsEffect.copyFile (iteration_toml_path dir iteration)
        (backup_toml_path dir iteration),
      FsEffect.writeFile (iteration_toml_path dir iteration)],
     dictSet (dictSet fs (backup_toml_path dir iteration) old)
       (iteration_toml_path dir iteration) content)
  | none =>
    ([FsEffect.writeFile (iteration_toml_path dir iteration)],
     dictSet fs (iteration_toml_path dir iteration) content)

/-! ## project.py: update_control_group_toml -/

/-- `ProjectComponent.update_control_group_toml` (project.py:687-719).
`cg_dict` is the loaded content of `control_groups.toml`, `iteration` is
`self.current_iteration`, `prev_iter` the salvus-opt previous iteration and
`new_control_group` the in-memory `self.new_control_group`.  In the
`not new` branch the source wipes the iteration's entry, sets `old` from the
previous iteration's `new`, and then tests `if new not in
cg_dict[iteration].keys()` — a membership test of the *boolean* `new`
against string keys, which always succeeds, so `new` is always reset
to `[]`. -/
def update_control_group_toml (cg_dict : List (String × CGEntry))
    (iteration prev_iter : String) (new first : Bool)
    (new_control_group : List String) :
    Except String (List (String × CGEntry)) :=
  if first then
    Except.ok [(iteration, { old? := some [], new? := some [] })]
  else if !new then
    let cg1 := dictSet cg_dict iteration {}
    match dictGet cg1 prev_iter with
    | none => Except.error ("KeyError: " ++ prev_iter)
    | some prevEntry =>
      match prevEntry.new? with
      | none => Except.error ("KeyError: new")
      | some prevNew =>
        let e1 : CGEntry := { old? := some prevNew }
        let cg2 := dictSet cg1 iteration e1
        if PyKey.bool new ∈ e1.keys then Except.ok cg2
        else Except.ok (dictSet cg2 iteration { e1 with new? := some [] })
  else
    let base := (dictGet cg_dict iteration).getD {}
    Except.ok
      (dictSet cg_dict iteration { base with new? := some new_control_group })

/-! ## project.py: update_iteration_toml -/

/-- The in-memory per-iteration attributes that `get_iteration_attributes`
loads and `update_iteration_toml` writes back (project.py:721-826).
`smoothing_job` is the per-event dict used in mini-batch mode;
`smoothing_job_mono` is the single iteration-level dict the same attribute
holds in mono-batch mode. -/
structure MemState where
  forward_job : List (String × JobRecord)
  adjoint_job : List (String × JobRecord)
  smoothing_job : List (String × JobRecord)
  smoothing_job_mono : JobRecord
  misfits : List (String × ℚ)
  updated : List (String × Bool)
deriving DecidableEq

/-- One pass of the event loop of `update_iteration_toml`
(project.py:754-770): build the `events[event]` entry from the in-memory
attribute dicts; any missing event key raises `KeyError`. -/
def buildEventEntry (cfg : Config) (st : MemState) (validation : Bool)
    (event : String) : Except String EventEntry :=
  match dictGet st.forward_job event with
  | none => Except.error ("KeyError: " ++ event)
  | some fw =>
    if validation then Except.ok { job_info := [("forward", fw)] }
    else
      match dictGet st.adjoint_job event with
      | none => Except.error ("KeyError: " ++ event)
      | some adj =>
        let jobs0 := [("forward", fw), ("adjoint", adj)]
        let jobsE : Except String (List (String × JobRecord)) :=
          if cfg.inversion_mode == "mini-batch" then
            match dictGet st.smoothing_job event with
            | none => Except.error ("KeyError: " ++ event)
            | some sm => Except.ok (jobs0 ++ [("smoothing", sm)])
          else Except.ok jobs0
        match jobsE with
        | Except.error m => Except.error m
        | Except.ok jobs =>
          match dictGet st.misfits event, dictGet st.updated event with
          | some mf, some up =>
            Except.ok { job_info := jobs, misfit := some mf,
                        usage_updated := some up }
          | _, _ => Except.error ("KeyError: " ++ event)

/-- The full event loop of `update_iteration_toml`. -/
def buildEvents (cfg : Config) (st : MemState) (validation : Bool) :
    List String → Except String (List (String × EventEntry))
  | [] => Except.ok []
  | e :: rest =>
    match buildEventEntry cfg st validation e with
    | Except.error m => Except.error m
    | Except.ok ent =>
      match buildEvents cfg st validation rest with
      | Except.error m => Except.error m
      | Except.ok tl => Except.ok ((e, ent) :: tl)

/-- `ProjectComponent.update_iteration_toml` (project.py:721-775), producing
the dict that is dumped to the iteration toml.  `cg_file` is the content of
`control_groups.toml` when that file exists.  The mono-batch, non-validation
tail of the source reads `it_dict["smoothing"]` in the stray comparison
`it_dict["smoothing"] == self.smoothing_job`; since no `smoothing` key was
ever put into `it_dict` in this function, that read raises `KeyError` and
nothing is written. -/
def update_iteration_toml (cfg : Config) (st : MemState)
    (iteration0 : String) (validation0 : Bool)
    (cg_file : Option (List (String × CGEntry))) (events : List String) :
    Except String ItDict :=
  let validation := validation0 || isValidationName iteration0
  let iteration := if validation && !isValidationName iteration0
                   then "validation_" ++ iteration0 else iteration0
  let cgE : Except String CGEntry :=
    match cg_file with
    | some f =>
      if !validation then
        match dictGet f iteration with
        | some e => Except.ok e
        | none => Except.error ("KeyError: " ++ iteration)
      else Except.ok { old? := some [], new? := some [] }
    | none => Except.ok { old? := some [], new? := some [] }
  match cgE with
  | Except.error m => Except.error m
  | Except.ok cg =>
    let lcgE : Except String (Option (List String) × Option (List String)) :=
      if validation then Except.ok (none, none)
      else
        match cg.old?, cg.new? with
        | some o, some n => Except.ok (some o, some n)
        | _, _ => Except.error ("KeyError: old")
    match lcgE with
    | Except.error m => Except.error m
    | Except.ok (lcg, ncg) =>
      match buildEvents cfg st validation events with
      | Except.error m => Except.error m
      | Except.ok evs =>
        if cfg.inversion_mode == "mono-batch" && !validation then
          Except.error ("KeyError: smoothing")
        else
          Except.ok { name := iteration, events := evs,
                      last_control_group := lcg, new_control_group := ncg,
                      smoothing := none }

/-! ## flow_comp.py: job naming and submission -/

/-- `SalvusFlowComponent._get_job_name` with `new=True`
(flow_comp.py:18-69): builds
`iteration + "_" + inversion_id + "_" + sim_type + "_" + unique_id` and
writes it into the job record's `name` field, touching nothing else.  A
`sim_type` outside forward/adjoint/smoothing raises `ValueError`; the
smoothing branch raises `InversionsonError`.  The record mutated is the
event's entry of `forward_job`/`adjoint_job`. -/
def get_job_name_new (r : JobRecord)
    (iteration inversion_id sim_type unique_id : String) :
    Except String JobRecord :=
  if !(sim_type == "forward" || sim_type == "adjoint"
      || sim_type == "smoothing") then
    Except.error ("ValueError: sim type not supported")
  else
    let job := iteration ++ "_" ++ inversion_id ++ "_" ++ sim_type
               ++ "_" ++ unique_id
    if sim_type == "forward" || sim_type == "adjoint" then
      Except.ok { r with name := job }
    else Except.error ("InversionsonError: not used")

/-- Result of one `submit_job` call: the (possibly updated) job record, the
number of `sapi.run_async` calls issued, and whether
`update_iteration_toml` was invoked at the end. -/
structure SubmitResult where
  record : JobRecord
  backend_submissions : Nat
  persisted : Bool
deriving DecidableEq

/-- `SalvusFlowComponent.submit_job` (flow_comp.py:454-527): always issues
exactly one `sapi.run_async` backend submission, then for forward/adjoint
writes the backend-assigned `job.job_name` and `submitted = True` into the
record (via `change_attribute`) and persists.  There is no check of the
current `submitted` flag and no error path. -/
def submit_job (sim_type : String) (r : JobRecord)
    (backend_job_name : String) : SubmitResult :=
  let r2 := if sim_type == "forward" || sim_type == "adjoint"
            then { r with name := backend_job_name, submitted := true }
            else r
  { record := r2, backend_submissions := 1, persisted := true }

/-! ## flow_comp.py: job resolution and status -/

/-- `SalvusFlowComponent.get_job` (flow_comp.py:97-163), current-iteration
branch: resolve the stored job name for the event, raising when the record
is not marked submitted.  In mono-batch mode the smoothing record is the
iteration-level one, otherwise the event's. -/
def get_job_current (cfg : Config) (sim_type : String)
    (forward_job adjoint_job smoothing_mono smoothing_event : JobRecord) :
    Except String String :=
  if sim_type == "forward" then
    if forward_job.submitted then Except.ok forward_job.name
    else Except.error ("Forward job has not been submitted")
  else if sim_type == "adjoint" then
    if adjoint_job.submitted then Except.ok adjoint_job.name
    else Except.error ("Adjoint job has not been submitted")
  else if sim_type == "smoothing" then
    let sj := if cfg.inversion_mode == "mono-batch" then smoothing_mono
              else smoothing_event
    if sj.submitted then Except.ok sj.name
    else Except.error ("Smoothing job has not been submitted")
  else Except.error ("NameError: job_name")

/-- Status enum of the salvus-flow backend. -/
inductive JobStatus
  | pending
  | running
  | complete
  | failed
  | unknownStatus
deriving DecidableEq

/-- The backend collaborator's `job.update_status(force_update=...)`
(spec interface `status(handle, force_refresh)`): with `force_update` the
live scheduler status is returned, otherwise the locally cached one. -/
def update_status (force_update : Bool) (cached live : JobStatus) :
    JobStatus :=
  if force_update then live else cached

/-- `SalvusFlowComponent.get_job_status` (flow_comp.py:529-548): resolve the
stored job handle via `get_job` and call
`job.update_status(force_update=True)`.  `cached` and `live` give the
backend's cached and live status per job name. -/
def get_job_status (cfg : Config) (sim_type : String)
    (forward_job adjoint_job smoothing_mono smoothing_event : JobRecord)
    (cached live : String → JobStatus) : Except String JobStatus :=
  match get_job_current cfg sim_type forward_job adjoint_job smoothing_mono
      smoothing_event with
  | Except.error m => Except.error m
  | Except.ok job_name =>
    Except.ok (update_status true (cached job_name) (live job_name))

/-! ## flow_comp.py: retrieve_outputs -/

/-- Result of a `retrieve_outputs` call: the job record afterwards, whether
`copy_output` was executed, and whether the iteration toml was rewritten
(it is, via the `update_iteration_toml` call inside `_get_job_name`). -/
structure RetrieveResult where
  record : JobRecord
  copied : Bool
  persisted : Bool
deriving DecidableEq

set_option linter.unusedVariables false in
/-- `SalvusFlowComponent.retrieve_outputs` (flow_comp.py:165-204): resolve
the stored name via `_get_job_name(new=False)` (which also persists), pick a
destination for forward/adjoint, and call `salvus_job.copy_output`
unconditionally.  The live backend status is never queried and the record's
`retrieved` flag is never written; unsupported sim types raise. -/
def retrieve_outputs (sim_type : String) (live_status : JobStatus)
    (r : JobRecord) : Except String RetrieveResult :=
  if !(sim_type == "forward" || sim_type == "adjoint"
      || sim_type == "smoothing") then
    Except.error ("ValueError: sim type not supported")
  else if sim_type == "forward" || sim_type == "adjoint" then
    Except.ok { record := r, copied := true, persisted := true }
  else
    Except.error ("InversionsonError: sim type not supported here")

/-! ## flow_comp.py: delete_stored_wavefields -/

/-- The per-event name lookup
`iter_info["events"][event]["job_info"][sim_type]["name"]`
(flow_comp.py:586). -/
def job_info_name (info : ItDict) (sim_type event : String) :
    Except String String :=
  match dictGet info.events event with
  | none => Except.error ("KeyError: " ++ event)
  | some ee =>
    match dictGet ee.job_info sim_type with
    | none => Except.error ("KeyError: " ++ sim_type)
    | some jr => Except.ok jr.name

/-- The deletion loop of `delete_stored_wavefields` (flow_comp.py:585-590):
for each event in order, resolve the job name and call `job.delete()`.
There is no exception handling, so the first failing delete (modelled by
`delete_ok`) propagates and the remaining events are never reached.
Returns the job names for which a delete call was issued, and the
outcome. -/
def delete_loop (delete_ok : String → Bool)
    (resolve : String → Except String String) :
    List String → List String × Except String Unit
  | [] => ([], Except.ok ())
  | e :: rest =>
    match resolve e with
    | Except.error m => ([], Except.error m)
    | Except.ok n =>
      if delete_ok n then
        let p := delete_loop delete_ok resolve rest
        (n :: p.1, p.2)
      else ([n], Except.error ("delete failed: " ++ n))

/-- `SalvusFlowComponent.delete_stored_wavefields` (flow_comp.py:572-590):
iterate over all events of the stored iteration record and delete each
event's job of the given sim type. -/
def delete_stored_wavefields (info : ItDict) (sim_type : String)
    (delete_ok : String → Bool) : List String × Except String Unit :=
  delete_loop delete_ok (job_info_name info sim_type)
    (info.events.map Prod.fst)

/-! ## Job-record step relation (for the lifecycle invariant) -/

/-- The operations of this repository that write a job record's `name` or
`submitted` field: a `submit_job` call (forward/adjoint path) with the
backend-assigned name, and a `_get_job_name(new=True)` call. -/
inductive JobOp
  | submitF (jobName : String)
  | nameNew (iteration inversion_id sim_type unique_id : String)
deriving DecidableEq

/-- Effect of one operation on the stored job record. A raised exception
leaves the record unchanged. -/
def job_step (r : JobRecord) : JobOp → JobRecord
  | JobOp.submitF n => (submit_job "forward" r n).record
  | JobOp.nameNew it inv st uid =>
    match get_job_name_new r it inv st uid with
    | Except.ok r2 => r2
    | Except.error _ => r

/-- The claimed invariant: a job has a backend handle exactly when it is
marked submitted. -/
def job_invariant (r : JobRecord) : Prop :=
  r.name ≠ "" ↔ r.submitted = true

/-! ## Helper lemmas -/

theorem iteration_path_ne_backup_path (dir iteration : String) :
    iteration_toml_path dir iteration ≠ backup_toml_path dir iteration := by
  intro h
  have hlen := congrArg String.length h
  simp only [iteration_toml_path, backup_toml_path,
    String.length_append] at hlen
  have h1 : String.length "/" = 1 := rfl
  have h2 : String.length "/backup_" = 8 := rfl
  rw [h1, h2] at hlen
  omega

theorem four_part_name_ne_empty (a b c d : String) :
    a ++ "_" ++ b ++ "_" ++ c ++ "_" ++ d ≠ "" := by
  intro h
  have hlen := congrArg String.length h
  simp only [String.length_append] at hlen
  have h1 : String.length "_" = 1 := rfl
  have h0 : String.length "" = 0 := rfl
  rw [h1, h0] at hlen
  omega

/-! ## Claim theorems -/

/-- Claim C6: when the persisted record of an iteration already exists,
`create_iteration_toml` raises a warning, copies the old file to the backup
path before the overwrite (the copy precedes the write in the effect
trace), and then overwrites the active file; afterwards the backup holds the
old content and the active file the new content, so no data is silently
discarded. -/
theorem create_iteration_toml_fs_backs_up (fs : List (String × String))
    (dir iteration content old : String)
    (h : dictGet fs (iteration_toml_path dir iteration) = some old) :
    (create_iteration_toml_fs fs dir iteration content).1 =
      [FsEffect.warnExisting iteration,
       FsEffect.copyFile (iteration_toml_path dir iteration)
         (backup_toml_path dir iteration),
       FsEffect.writeFile (iteration_toml_path dir iteration)] ∧
    dictGet (create_iteration_toml_fs fs dir iteration content).2
      (backup_toml_path dir iteration) = some old ∧
    dictGet (create_iteration_toml_fs fs dir iteration content).2
      (iteration_toml_path dir iteration) = some content := by
  unfold create_iteration_toml_fs
  rw [h]
  refine ⟨rfl, ?_, ?_⟩

  · rw [dictGet_dictSet_ne _ _ _ _ (iteration_path_ne_backup_path dir iteration)]
    exact dictGet_dictSet_self _ _ _
  · exact dictGet_dictSet_self _ _ _

/-- Witness for C6 at a concrete one-file file system. -/
theorem create_iteration_toml_fs_backs_up_witness :
    (create_iteration_toml_fs [("DOC/it0000_model.toml", "oldrecord")]
        "DOC" "it0000_model" "newrecord").1 =
      [FsEffect.warnExisting "it0000_model",
       FsEffect.copyFile (iteration_toml_path "DOC" "it0000_model")
         (backup_toml_path "DOC" "it0000_model"),
       FsEffect.writeFile (iteration_toml_path "DOC" "it0000_model")] ∧
    dictGet (create_iteration_toml_fs [("DOC/it0000_model.toml", "oldrecord")]
        "DOC" "it0000_model" "newrecord").2
      (backup_toml_path "DOC" "it0000_model") = some "oldrecord" ∧
    dictGet (create_iteration_toml_fs [("DOC/it0000_model.toml", "oldrecord")]
        "DOC" "it0000_model" "newrecord").2
      (iteration_toml_path "DOC" "it0000_model") = some "newrecord" :=
  create_iteration_toml_fs_backs_up
    [("DOC/it0000_model.toml", "oldrecord")] "DOC" "it0000_model"
    "newrecord" "oldrecord" (by decide)

/-- Claim C1: for a non-initial, non-validation iteration created after the
preceding non-validation iteration's new control group was recorded in the
ledger (`update_control_group_toml` with `new=True`), the created
iteration's `last_control_group` equals exactly that recorded group; and
the very first iteration `it0000_model` gets an empty
`last_control_group`. -/
theorem create_iteration_chains_control_groups :
    (∀ (cfg : Config) (iteration prev_iter : String)
        (ledger ledger2 : List (String × CGEntry))
        (ncg events : List String) (d : ItDict),
      isValidationName iteration = false →
      iteration ≠ "it0000_model" →
      update_control_group_toml ledger prev_iter prev_iter true false ncg =
        Except.ok ledger2 →
      create_iteration_toml cfg iteration ledger2 prev_iter events =
        Except.ok d →
      d.last_control_group = some ncg) ∧
    (∀ (cfg : Config) (ledger : List (String × CGEntry))
        (prev_iter : String) (events : List String) (d : ItDict),
      create_iteration_toml cfg "it0000_model" ledger prev_iter events =
        Except.ok d →
      d.last_control_group = some []) := by
  constructor
  · intro cfg iteration prev_iter ledger ledger2 ncg events d hval hfirst
      hrec hok
    have hne : (iteration != "it0000_model") = true := bne_iff_ne.mpr hfirst
    simp only [update_control_group_toml, Bool.not_true, Bool.false_eq_true,
      if_false, Except.ok.injEq] at hrec
    subst hrec
    simp only [create_iteration_toml, hval, hne, Bool.not_false,
      Bool.and_self, if_true, dictGet_dictSet_self, Bool.false_eq_true,
      if_false] at hok
    simp only [Except.ok.injEq] at hok
    subst hok
    rfl
  · intro cfg ledger prev_iter events d hok
    have hval : isValidationName "it0000_model" = false := by decide
    simp only [create_iteration_toml, hval, bne_self_eq_false,
      Bool.false_and, Bool.false_eq_true, if_false,
      Except.ok.injEq] at hok
    subst hok
    rfl

/-- Witness ledger for C1: the ledger after the very first recording call
(`update_control_group_toml` with `new=True` for `it0000_model`). -/
def ledger_after_record : List (String × CGEntry) :=
  [("it0000_model", { old? := none, new? := some ["E1"] })]

/-- Witness iteration records for C1 (mini-batch, mono-mesh). -/
def cfg_mini_mono : Config :=
  { meshes := "mono-mesh", inversion_mode := "mini-batch" }

/-- The per-event entry of a fresh mini-batch, mono-mesh, non-validation
iteration. -/
def fresh_entry : EventEntry :=
  { job_info := [("forward", base_job), ("adjoint", base_job),
                 ("smoothing", base_job)],
    misfit := some 0, usage_updated := some false }

/-- The iteration record `create_iteration_toml` builds for `it0001_model`
from `ledger_after_record`. -/
def d_it0001 : ItDict :=
  { name := "it0001_model",
    events := [("E1", fresh_entry), ("E2", fresh_entry)],
    last_control_group := some ["E1"],
    new_control_group := some [],
    smoothing := none }

/-- The iteration record `create_iteration_toml` builds for `it0000_model`. -/
def d_it0000 : ItDict :=
  { name := "it0000_model",
    events := [("E1", fresh_entry), ("E2", fresh_entry)],
    last_control_group := some [],
    new_control_group := some [],
    smoothing := none }

/-- Witness for C1 at concrete inputs. -/
theorem create_iteration_chains_control_groups_witness :
    d_it0001.last_control_group = some ["E1"] ∧
    d_it0000.last_control_group = some [] :=
  ⟨create_iteration_chains_control_groups.1 cfg_mini_mono "it0001_model"
      "it0000_model" [] ledger_after_record ["E1"] ["E1", "E2"] d_it0001
      (by decide) (by decide) rfl rfl,
   create_iteration_chains_control_groups.2 cfg_mini_mono
      ledger_after_record "it0000_model" ["E1", "E2"] d_it0000 rfl⟩

/-- Claim C10: `update_control_group_toml` with `new=False` replaces the
current iteration's whole ledger entry: `old` is taken from the previous
iteration's `new`, and `new` is unconditionally reset to `[]` (the source's
membership test compares the boolean `new` against the string keys and thus
always succeeds), discarding whatever entry — including a previously
committed `new` group — the iteration had. -/
theorem update_control_group_start_resets_new
    (cg_dict : List (String × CGEntry)) (iteration prev_iter : String)
    (pe : CGEntry) (pn ncg : List String) (hne : prev_iter ≠ iteration)
    (h1 : dictGet cg_dict prev_iter = some pe) (h2 : pe.new? = some pn) :
    update_control_group_toml cg_dict iteration prev_iter false false ncg =
      Except.ok (dictSet cg_dict iteration
        { old? := some pn, new? := some [] }) := by
  have hwipe : dictGet (dictSet cg_dict iteration ({} : CGEntry)) prev_iter =
      some pe := by
    rw [dictGet_dictSet_ne _ _ _ _ (Ne.symm hne)]
    exact h1
  simp only [update_control_group_toml, Bool.false_eq_true, if_false,
    Bool.not_false, if_true, hwipe, h2]
  simp [CGEntry.keys, dictSet_dictSet_same]

/-- Witness ledger for C10, holding a previously committed `new` group for
`it0001_model` that the start-of-iteration call then discards. -/
def ledger_with_committed : List (String × CGEntry) :=
  [("it0000_model", { old? := some [], new? := some ["E1"] }),
   ("it0001_model", { old? := some ["Z"], new? := some ["E9"] })]

/-- Witness for C10 at concrete inputs: the existing
`{old: [Z], new: [E9]}` entry of `it0001_model` is replaced by
`{old: [E1], new: []}`. -/
theorem update_control_group_start_resets_new_witness :
    update_control_group_toml ledger_with_committed "it0001_model"
        "it0000_model" false false ["X"] =
      Except.ok (dictSet ledger_with_committed "it0001_model"
        { old? := some ["E1"], new? := some [] }) :=
  update_control_group_start_resets_new ledger_with_committed "it0001_model"
    "it0000_model" { old? := some [], new? := some ["E1"] } ["E1"] ["X"]
    (by decide) rfl rfl

/-- Claim C7: a fresh non-validation mini-batch iteration maps every
catalog event to `job_info` with forward, adjoint and smoothing records
seeded to `{name: "", submitted: false, retrieved: false, reposts: 0}` —
forward and adjoint additionally carrying `interpolated: false` in
multi-mesh mode (the flag the data model gives to forward/adjoint jobs
only) — with per-event misfit `0.0` and `usage_updated` false, and the
first iteration gets `last_control_group = []` and
`new_control_group = []`. -/
theorem create_iteration_minibatch_fresh (meshes iteration prev_iter : String)
    (ctrl : List (String × CGEntry)) (events : List String) (d : ItDict)
    (hval : isValidationName iteration = false)
    (hok : create_iteration_toml
        { meshes := meshes, inversion_mode := "mini-batch" } iteration ctrl
        prev_iter events = Except.ok d) :
    (∀ e ∈ events, dictGet d.events e =
      some { job_info := [("forward", mm_seed meshes),
                          ("adjoint", mm_seed meshes),
                          ("smoothing", base_job)],
             misfit := some 0, usage_updated := some false }) ∧
    (iteration = "it0000_model" →
      d.last_control_group = some [] ∧ d.new_control_group = some []) := by
  simp only [create_iteration_toml, hval, Bool.not_false, Bool.and_true,
    Bool.false_eq_true, if_false] at hok
  by_cases hit : iteration = "it0000_model"
  · subst hit
    simp only [bne_self_eq_false, Bool.false_eq_true, if_false,
      Except.ok.injEq] at hok
    subst hok
    refine ⟨?_, fun _ => ⟨rfl, rfl⟩⟩
    intro e he
    rw [dictGet_map_const _ _ _ he]
    simp only [mm_seed]
    by_cases hm : meshes == "multi-mesh" <;> simp [hm]
  · have hne : (iteration != "it0000_model") = true := bne_iff_ne.mpr hit
    simp only [hne, if_true] at hok
    rcases hd : dictGet ctrl prev_iter with _ | pe
    · simp only [hd] at hok
      simp at hok
    · simp only [hd] at hok
      rcases hn : pe.new? with _ | pn
      · simp only [hn] at hok
        simp at hok
      · simp only [hn, Except.ok.injEq] at hok
        subst hok
        refine ⟨?_, fun h => absurd h hit⟩
        intro e he
        rw [dictGet_map_const _ _ _ he]
        simp only [mm_seed]
        by_cases hm : meshes == "multi-mesh" <;> simp [hm]

/-- Witness for C7 at a concrete fresh first iteration with two events. -/
theorem create_iteration_minibatch_fresh_witness :
    (∀ e ∈ ["E1", "E2"], dictGet d_it0000.events e =
      some { job_info := [("forward", mm_seed "mono-mesh"),
                          ("adjoint", mm_seed "mono-mesh"),
                          ("smoothing", base_job)],
             misfit := some 0, usage_updated := some false }) ∧
    ("it0000_model" = "it0000_model" →
      d_it0000.last_control_group = some [] ∧
      d_it0000.new_control_group = some []) :=
  create_iteration_minibatch_fresh "mono-mesh" "it0000_model" "prev" []
    ["E1", "E2"] d_it0000 (by decide) rfl

/-- A job record that has been submitted (backend handle `job-abc`). -/
def submitted_record : JobRecord :=
  { name := "job-abc", submitted := true, retrieved := false, reposts := 0 }

/-- Claim C8: `get_job_status` resolves the stored backend job handle and
always returns what the backend currently reports — the call passes
`force_update=True`, so the cached status never influences the result, for
every simulation type. -/
theorem get_job_status_queries_live (cfg : Config)
    (forward_job adjoint_job smoothing_mono smoothing_event : JobRecord)
    (cached live : String → JobStatus)
    (hf : forward_job.submitted = true)
    (ha : adjoint_job.submitted = true)
    (hm : smoothing_mono.submitted = true)
    (he : smoothing_event.submitted = true) :
    get_job_status cfg "forward" forward_job adjoint_job smoothing_mono
        smoothing_event cached live = Except.ok (live forward_job.name) ∧
    get_job_status cfg "adjoint" forward_job adjoint_job smoothing_mono
        smoothing_event cached live = Except.ok (live adjoint_job.name) ∧
    get_job_status cfg "smoothing" forward_job adjoint_job smoothing_mono
        smoothing_event cached live =
      Except.ok (live (if cfg.inversion_mode == "mono-batch"
        then smoothing_mono else smoothing_event).name) := by
  refine ⟨?_, ?_, ?_⟩
  · simp [get_job_status, get_job_current, update_status, hf]
  · simp [get_job_status, get_job_current, update_status, ha]
  · by_cases hmode : (cfg.inversion_mode == "mono-batch") = true <;>
      simp [get_job_status, get_job_current, update_status, hmode, hm, he]

/-- Witness for C8: cached status PENDING, live status RUNNING — the call
reports RUNNING. -/
theorem get_job_status_queries_live_witness :
    get_job_status cfg_mini_mono "forward" submitted_record submitted_record
        submitted_record submitted_record (fun _ => JobStatus.pending)
        (fun _ => JobStatus.running) = Except.ok JobStatus.running :=
  (get_job_status_queries_live cfg_mini_mono submitted_record
      submitted_record submitted_record submitted_record
      (fun _ => JobStatus.pending) (fun _ => JobStatus.running)
      rfl rfl rfl rfl).1

/-- Counterexample to C3: with the live status PENDING (not COMPLETE),
`retrieve_outputs` for a forward job still succeeds and performs the output
copy — no `NotReadyError`, no status check — and the record's `retrieved`
flag stays false. -/
theorem retrieve_outputs_ignores_status_counterexample :
    JobStatus.pending ≠ JobStatus.complete ∧
    retrieve_outputs "forward" JobStatus.pending submitted_record =
      Except.ok { record := submitted_record, copied := true,
                  persisted := true } ∧
    submitted_record.retrieved = false :=
  ⟨by decide, rfl, rfl⟩

/-- Claim C3 (amended): `retrieve_outputs` never queries the job status:
for forward and adjoint it performs the output copy whatever the live
status is, leaving the record (and in particular `retrieved`) untouched;
only unsupported simulation types fail. -/
theorem retrieve_outputs_copies_unconditionally (live_status : JobStatus)
    (r : JobRecord) :
    retrieve_outputs "forward" live_status r =
      Except.ok { record := r, copied := true, persisted := true } ∧
    retrieve_outputs "adjoint" live_status r =
      Except.ok { record := r, copied := true, persisted := true } ∧
    retrieve_outputs "smoothing" live_status r =
      Except.error ("InversionsonError: sim type not supported here") :=
  ⟨rfl, rfl, rfl⟩

/-- Counterexample to C5: `submit_job` invoked on a record already marked
submitted issues another backend submission (`run_async` is called
unconditionally) and returns normally — there is no
`AlreadySubmittedError` path in the code. -/
theorem submit_job_already_submitted_counterexample :
    submitted_record.submitted = true ∧
    submit_job "forward" submitted_record "job-def" =
      { record := { name := "job-def", submitted := true,
                    retrieved := false, reposts := 0 },
        backend_submissions := 1, persisted := true } :=
  ⟨rfl, rfl⟩

/-- Claim C5 (amended): `submit_job` performs no submitted-state check at
all: for any record — already submitted or not — it issues exactly one
backend submission, overwrites `name` and sets `submitted` for
forward/adjoint, and returns normally. -/
theorem submit_job_unconditional (r : JobRecord) (n : String) :
    submit_job "forward" r n =
      { record := { r with name := n, submitted := true },
        backend_submissions := 1, persisted := true } ∧
    submit_job "adjoint" r n =
      { record := { r with name := n, submitted := true },
        backend_submissions := 1, persisted := true } ∧
    submit_job "smoothing" r n =
      { record := r, backend_submissions := 1, persisted := true } :=
  ⟨rfl, rfl, rfl⟩

/-- Shape of a successful `_get_job_name(new=True)` call: only `name` is
written, to the four-part concatenation; `submitted` is untouched. -/
theorem get_job_name_new_ok (r r2 : JobRecord) (it inv st uid : String)
    (h : get_job_name_new r it inv st uid = Except.ok r2) :
    r2.name = it ++ "_" ++ inv ++ "_" ++ st ++ "_" ++ uid ∧
    r2.submitted = r.submitted := by
  unfold get_job_name_new at h
  split at h
  · exact absurd h (by simp)
  · split at h
    · simp only [Except.ok.injEq] at h
      subst h
      exact ⟨rfl, rfl⟩
    · exact absurd h (by simp)

/-- Any single repository operation preserves "has a backend handle and is
marked submitted". -/
theorem job_step_preserves_submitted_handle (r : JobRecord) (op : JobOp)
    (hr : r.name ≠ "" ∧ r.submitted = true)
    (hop : ∀ m, op = JobOp.submitF m → m ≠ "") :
    (job_step r op).name ≠ "" ∧ (job_step r op).submitted = true := by
  cases op with
  | submitF m => exact ⟨hop m rfl, rfl⟩
  | nameNew it inv st uid =>
    simp only [job_step]
    rcases hgn : get_job_name_new r it inv st uid with m | r2
    · exact hr
    · obtain ⟨hname, hsub⟩ := get_job_name_new_ok r r2 it inv st uid hgn
      refine ⟨?_, ?_⟩
      · show r2.name ≠ ""
        rw [hname]
        exact four_part_name_ne_empty it inv st uid
      · show r2.submitted = true
        rw [hsub]
        exact hr.2

/-- Counterexample to C2: `_get_job_name(new=True)` assigns a non-empty job
name to a fresh, unsubmitted record without setting `submitted` in the same
step, so there is an operation that writes a job name yet leaves
`submitted = false`. -/
theorem get_job_name_new_no_submit_counterexample :
    get_job_name_new base_job "it0000_model" "INV" "forward" "0123ABCD" =
      Except.ok { name := "it0000_model_INV_forward_0123ABCD",
                  submitted := false, retrieved := false, reposts := 0 } ∧
    ("it0000_model_INV_forward_0123ABCD" : String) ≠ "" :=
  ⟨rfl, by decide⟩

/-- Claim C2 (amended): after the first `submit_job` call (which stores a
non-empty backend handle and sets `submitted` in the same step), the
invariant `name ≠ "" ⟺ submitted` holds and is preserved by every further
name/submitted-writing operation of the repository; however
`_get_job_name(new=True)` assigns a job name *without* setting `submitted`,
so the invariant is only guaranteed from the first submission on, not as a
property of every name-assigning operation. -/
theorem job_invariant_after_first_submit (r : JobRecord) (n : String)
    (hn : n ≠ "") (ops : List JobOp)
    (hops : ∀ op ∈ ops, ∀ m, op = JobOp.submitF m → m ≠ "") :
    job_invariant (ops.foldl job_step (job_step r (JobOp.submitF n))) := by
  have main : ∀ (l : List JobOp) (s : JobRecord),
      s.name ≠ "" ∧ s.submitted = true →
      (∀ op ∈ l, ∀ m, op = JobOp.submitF m → m ≠ "") →
      (l.foldl job_step s).name ≠ "" ∧
        (l.foldl job_step s).submitted = true := by
    intro l
    induction l with
    | nil => exact fun s hs _ => hs
    | cons a t ih =>
      intro s hs hl
      simp only [List.foldl_cons]
      exact ih _
        (job_step_preserves_submitted_handle s a hs
          (hl a (List.mem_cons_self a t)))
        (fun op hop => hl op (List.mem_cons_of_mem a hop))
  have hfin := main ops (job_step r (JobOp.submitF n)) ⟨hn, rfl⟩ hops
  exact ⟨fun _ => hfin.2, fun _ => hfin.1⟩

/-- Witness for C2 at a concrete trace: submit with handle `job-abc`, then
a `_get_job_name(new=True)` renaming step. -/
theorem job_invariant_after_first_submit_witness :
    job_invariant
      (([JobOp.nameNew "it0001_model" "INV" "forward" "AB12CD34"]).foldl
        job_step (job_step base_job (JobOp.submitF "job-abc"))) :=
  job_invariant_after_first_submit base_job "job-abc" (by decide)
    [JobOp.nameNew "it0001_model" "INV" "forward" "AB12CD34"]
    (by
      intro op hop m hm
      simp only [List.mem_singleton] at hop
      subst hop
      exact JobOp.noConfusion hm)

/-- C9 example data: a submitted forward job named `job1`. -/
def job1_record : JobRecord :=
  { name := "job1", submitted := true, retrieved := false, reposts := 0 }

/-- C9 example data: a submitted forward job named `job2`. -/
def job2_record : JobRecord :=
  { name := "job2", submitted := true, retrieved := false, reposts := 0 }

/-- C9 example data: the event entry holding `job1`. -/
def e1_entry : EventEntry :=
  { job_info := [("forward", job1_record)], misfit := some 0,
    usage_updated := some false }

/-- C9 example data: the event entry holding `job2`. -/
def e2_entry : EventEntry :=
  { job_info := [("forward", job2_record)], misfit := some 0,
    usage_updated := some false }

/-- C9 example data: an iteration record with two events whose forward
jobs are `job1` and `job2`. -/
def two_event_info : ItDict :=
  { name := "it0000_model",
    events := [("E1", e1_entry), ("E2", e2_entry)],
    last_control_group := some [], new_control_group := some [],
    smoothing := none }

/-- A backend in which deleting `job1` raises and every other delete
succeeds. -/
def fail_on_job1 : String → Bool := fun n => !(n == "job1")

/-- Counterexample to C9: with the backend failing on `job1`, the deletion
loop aborts — the delete for event E2's job `job2` is never issued. -/
theorem delete_stored_wavefields_aborts_counterexample :
    delete_stored_wavefields two_event_info "forward" fail_on_job1 =
      (["job1"], Except.error ("delete failed: job1")) ∧
    "job2" ∉
      (delete_stored_wavefields two_event_info "forward" fail_on_job1).1 :=
  ⟨rfl, by decide⟩

/-- Claim C9 (amended): `delete_stored_wavefields` iterates the iteration's
events in order, resolving each stored job and issuing a backend delete,
but it has no error handling: the first failing delete propagates and the
remaining events' deletes are never issued (deletion is fail-fast, not
best-effort). -/
theorem delete_stored_wavefields_fail_fast (info : ItDict)
    (sim_type : String) (delete_ok : String → Bool) (e : String)
    (rest : List String) (n : String)
    (h_events : info.events.map Prod.fst = e :: rest)
    (h_name : job_info_name info sim_type e = Except.ok n)
    (h_fail : delete_ok n = false) :
    delete_stored_wavefields info sim_type delete_ok =
      ([n], Except.error ("delete failed: " ++ n)) := by
  simp only [delete_stored_wavefields, h_events, delete_loop, h_name,
    h_fail, Bool.false_eq_true, if_false]

/-- Witness for C9 at the concrete two-event record. -/
theorem delete_stored_wavefields_fail_fast_witness :
    delete_stored_wavefields two_event_info "forward" fail_on_job1 =
      (["job1"], Except.error ("delete failed: " ++ "job1")) :=
  delete_stored_wavefields_fail_fast two_event_info "forward" fail_on_job1
    "E1" ["E2"] "job1" rfl rfl rfl

/-- An in-memory iteration state with one event, as loaded by
`get_iteration_attributes` in mono-batch mode. -/
def mem_state_one_event : MemState :=
  { forward_job := [("E1", submitted_record)],
    adjoint_job := [("E1", submitted_record)],
    smoothing_job := [],
    smoothing_job_mono := submitted_record,
    misfits := [("E1", 0)],
    updated := [("E1", false)] }

/-- Claim C4 (code bug): for a mono-batch, non-validation iteration,
`update_iteration_toml` never writes the iteration-level `smoothing` job
record — the source line `it_dict["smoothing"] == self.smoothing_job` is a
stray comparison (not an assignment) that reads a key never put into
`it_dict`, so the call raises `KeyError` and the file is not rewritten at
all.  `create_iteration_toml` writes that key and
`get_iteration_attributes` requires it, so the code contradicts its own
read path. -/
theorem update_iteration_toml_monobatch_drops_smoothing :
    update_iteration_toml
        { meshes := "mono-mesh", inversion_mode := "mono-batch" }
        mem_state_one_event "it0000_model" false
        (some [("it0000_model", { old? := some [], new? := some [] })])
        ["E1"] =
      Except.error ("KeyError: smoothing") := rfl

end Inversionson
